import Mathlib

/-!
# Shallow embedding of the container rootfs-assembly pipeline

This file models the Go program (`main.go` of the docker_demo runtime) in
Lean 4.  External effects (the `mount`/`umount` tool, `mkdir -p`, `setenv`,
`chdir`, `pivot_root`, `stat`, JSON descriptor loading, process spawning)
are represented by an oracle `World` that decides whether each operation
succeeds, and every modelled function returns the ordered list of effect
`Event`s it issues together with its result.  Go `error` values become
`GoError`; a Go runtime panic (an out-of-range index) is a distinct
`Outcome.panicked` result, never an `Outcome.err`.
-/

set_option maxRecDepth 4096

namespace DockerDemo

/-- A Docker image layer as decoded from `manifest.json` (`Layer` in the
source): digest string, media type, size. -/
structure Layer where
  digest : String
  mediaType : String
  size : Nat
  deriving DecidableEq, Repr

/-- Go error values as produced by this program: base failures plus
`errors.Wrap`-style contextual wrapping. -/
inductive GoError where
  /-- file open / JSON decode failure reported by a descriptor loader -/
  | ioError (msg : String)
  /-- a spawned external command exited nonzero -/
  | execFailed (prog : String) (args : List String)
  /-- Error where `os.Stat` reported that the path does not exist -/
  | notExist (path : String)
  /-- Error `errors.Errorf("无效的环境变量: %s", e)` for a malformed env entry -/
  | invalidEnv (entry : String)
  /-- Failure of `os.Setenv` -/
  | setenvFailed (key value : String)
  /-- Failure of `os.MkdirAll` -/
  | mkdirFailed (path : String)
  /-- Failure of `os.Chdir` -/
  | chdirFailed (path : String)
  /-- Failure of `syscall.PivotRoot` -/
  | pivotFailed (newRoot putOld : String)
  /-- Wrapping by `errors.Wrap(inner, msg)` -/
  | wrap (msg : String) (inner : GoError)
  deriving DecidableEq, Repr

/-- Strip all `errors.Wrap` layers to reach the root cause. -/
def GoError.rootCause : GoError → GoError
  | .wrap _ inner => inner.rootCause
  | e => e

/-- The error is (after unwrapping) a not-found / nonexistent-path error. -/
def GoError.isNotFoundClass (e : GoError) : Bool :=
  match e.rootCause with
  | .notExist _ => true
  | _ => false

/-- The error is (after unwrapping) a validation error (malformed input). -/
def GoError.isValidationClass (e : GoError) : Bool :=
  match e.rootCause with
  | .invalidEnv _ => true
  | _ => false

/-- How the Namespace Launcher configures the re-executed child command
(`exec.Command` + `SysProcAttr` in `runInNamespace`). -/
structure LaunchSpec where
  prog : String
  args : List String
  cloneflags : Nat
  inheritStdio : Bool
  deriving DecidableEq, Repr

/-- One external effect issued by the pipeline, in program order. -/
inductive Event where
  /-- invocation of an external tool (`exec.Command(prog, args...)`) -/
  | exec (prog : String) (args : List String)
  /-- Call to `os.MkdirAll(path, os.ModePerm)` -/
  | mkdirAll (path : String)
  /-- Call to `os.Setenv(key, value)` -/
  | setenv (key value : String)
  /-- Call to `os.Chdir(path)` -/
  | chdir (path : String)
  /-- Call to `syscall.PivotRoot(newRoot, putOld)` -/
  | pivotRoot (newRoot putOld : String)
  /-- Existence check `os.Stat(path)` -/
  | statCheck (path : String)
  /-- spawning the namespaced child (`cmd.Run()` in `runInNamespace`) -/
  | spawn (spec : LaunchSpec)
  deriving DecidableEq, Repr

/-- Result of a modelled Go function: normal value, returned error, or a
runtime panic. -/
inductive Outcome (α : Type) where
  | ok (a : α)
  | err (e : GoError)
  | panicked (msg : String)
  deriving DecidableEq, Repr

/-- Oracle for the outside world: which operations succeed, what the
descriptor files decode to, and what a spawned child returns. -/
structure World where
  /-- does `exec.Command(prog, args...).CombinedOutput()` succeed -/
  execOk : String → List String → Bool
  /-- does `os.MkdirAll path` succeed -/
  mkdirOk : String → Bool
  /-- does `os.Setenv key value` succeed -/
  setenvOk : String → String → Bool
  /-- does `os.Chdir path` succeed -/
  chdirOk : String → Bool
  /-- does `syscall.PivotRoot a b` succeed -/
  pivotOk : String → String → Bool
  /-- does `os.Stat path` find the path (false = IsNotExist) -/
  statExists : String → Bool
  /-- result of `loadConfig path` (file open + JSON decode, external) -/
  loadConfigRes : String → Except GoError (List String)
  /-- result of `loadManifest path` (file open + JSON decode, external) -/
  loadManifestRes : String → Except GoError (List Layer)
  /-- result the parent observes from `cmd.Run()` on the namespaced child -/
  spawnResult : LaunchSpec → Except GoError Unit

/-- Models Go `filepath.Join(a, b)` for the joins this program performs:
both operands nonempty and already clean, `b` relative. -/
def fpJoin (a b : String) : String := a ++ "/" ++ b

/-- Split a character list at every occurrence of `c` (Go
`strings.Split` on a one-character separator, over `String.data`). -/
def splitChar (c : Char) : List Char → List (List Char)
  | [] => [[]]
  | a :: rest =>
      if a = c then [] :: splitChar c rest
      else
        match splitChar c rest with
        | [] => [[a]]
        | grp :: grps => (a :: grp) :: grps

/-- Models Go `strings.Split(s, sep)` for a one-character separator. -/
def strSplit (s : String) (c : Char) : List String :=
  (splitChar c s.data).map String.mk

/-- Split a character list at the first occurrence of `c` only (Go
`strings.SplitN(s, sep, 2)` over `String.data`). -/
def splitFirst (c : Char) : List Char → List (List Char)
  | [] => [[]]
  | a :: rest =>
      if a = c then [[], rest]
      else
        match splitFirst c rest with
        | [] => [[a]]
        | grp :: grps => (a :: grp) :: grps

/-- Models Go `strings.SplitN(s, "=", 2)`: split at the first `=` only. -/
def splitN2Eq (s : String) : List String :=
  (splitFirst '=' s.data).map String.mk

/-- Models Go `os.Setenv` on an association-list environment: overwrite the
binding if the key exists, otherwise append it. -/
def envSet : List (String × String) → String → String → List (String × String)
  | [], k, v => [(k, v)]
  | (k', v') :: rest, k, v =>
      if k' = k then (k, v) :: rest else (k', v') :: envSet rest k v

/-- Models `mountRecPrivate`: `mount --make-rprivate /`. -/
def mountRecPrivate (w : World) : List Event × Outcome Unit :=
  let args := ["--make-rprivate", "/"]
  ([Event.exec "mount" args],
   if w.execOk "mount" args then .ok () else
     .err (.wrap "mount output" (.execFailed "mount" args)))

/-- The loop body of `setEnv` (lines 88–97): apply entries left to right,
failing on the first malformed entry or `os.Setenv` error. -/
def setEnvLoop (w : World) :
    List String → List (String × String) →
    List Event × List (String × String) × Outcome Unit
  | [], env => ([], env, .ok ())
  | e :: rest, env =>
      let parts := splitN2Eq e
      if parts.length = 2 then
        let k := (parts.get? 0).getD ""
        let v := (parts.get? 1).getD ""
        if w.setenvOk k v then
          (Event.setenv k v :: (setEnvLoop w rest (envSet env k v)).1,
           (setEnvLoop w rest (envSet env k v)).2.1,
           (setEnvLoop w rest (envSet env k v)).2.2)
        else
          ([Event.setenv k v], env,
           .err (.wrap "设置环境变量时出错" (.setenvFailed k v)))
      else
        ([], env, .err (.invalidEnv ("无效的环境变量: " ++ e)))

/-- Models `setEnv`: load the env list from `config.json` and apply it. -/
def setEnv (w : World) (configPath : String) (env : List (String × String)) :
    List Event × List (String × String) × Outcome Unit :=
  match w.loadConfigRes configPath with
  | .error e => ([], env, .err (.wrap "读取 config.json 时出错" e))
  | .ok envVars => setEnvLoop w envVars env

/-- Models `mountTmpfs`: `mount -t tmpfs tmpfs <targetDir>`. -/
def mountTmpfs (w : World) (targetDir : String) : List Event × Outcome Unit :=
  let args := ["-t", "tmpfs", "tmpfs", targetDir]
  ([Event.exec "mount" args],
   if w.execOk "mount" args then .ok () else
     .err (.wrap "mount output" (.execFailed "mount" args)))

/-- The `for _, dir := range dirs` loop of `prepareDirs`. -/
def mkdirEach (w : World) : List String → List Event × Outcome Unit
  | [] => ([], .ok ())
  | dir :: rest =>
      if w.mkdirOk dir then
        (Event.mkdirAll dir :: (mkdirEach w rest).1, (mkdirEach w rest).2)
      else
        ([Event.mkdirAll dir],
         .err (.wrap ("创建 " ++ dir ++ " 目录时出错") (.mkdirFailed dir)))

/-- Models `prepareDirs`: create the base directory, mount a tmpfs on it, then
create each requested directory, failing fast. -/
def prepareDirs (w : World) (baseDir : String) (dirs : List String) :
    List Event × Outcome Unit :=
  if w.mkdirOk baseDir then
    match (mountTmpfs w baseDir).2 with
    | .ok _ =>
        (Event.mkdirAll baseDir :: (mountTmpfs w baseDir).1 ++ (mkdirEach w dirs).1,
         (mkdirEach w dirs).2)
    | .err e =>
        (Event.mkdirAll baseDir :: (mountTmpfs w baseDir).1,
         .err (.wrap "挂载 tmpfs 时出错" e))
    | .panicked m =>
        (Event.mkdirAll baseDir :: (mountTmpfs w baseDir).1, .panicked m)
  else
    ([Event.mkdirAll baseDir],
     .err (.wrap "创建 base 目录时出错" (.mkdirFailed baseDir)))

/-- The fixed layer cache root hard-coded in `setLayers`. -/
def layerCacheRoot : String := "/tmp/proxy_pool/layers"

/-- Models `filepath.Join("/tmp/proxy_pool/layers", strings.Split(layer.Digest, ":")[1])`.
The index `[1]` panics (is `none` here) when the digest has no `:`. -/
def layerPath? (l : Layer) : Option String :=
  ((strSplit l.digest ':').get? 1).map (fun hex => fpJoin layerCacheRoot hex)

/-- Collect the layer paths of a layer list in order, stopping with `none`
(the modelled panic) at the first digest with no `:`. -/
def lowerLoop : List Layer → Option (List String)
  | [] => some []
  | l :: rest =>
      match layerPath? l with
      | none => none
      | some p =>
          match lowerLoop rest with
          | none => none
          | some ps => some (p :: ps)

/-- The `for i := len(layers) - 1; i >= 0; i--` loop of `setLayers`:
collect layer paths in reverse manifest order; `none` models the panic on
a digest with no `:`. -/
def lowerDirsOf (layers : List Layer) : Option (List String) :=
  lowerLoop layers.reverse

/-- Models `mountOverlayFS`: join the lower directories with `:` and issue a single
overlay mount with `lowerdir=`, `upperdir=`, `workdir=` options. -/
def mountOverlayFS (w : World) (lowerDirs : List String)
    (upperDir workDir targetDir : String) : List Event × Outcome Unit :=
  let lowerdir := String.intercalate ":" lowerDirs
  let options :=
    "lowerdir=" ++ lowerdir ++ ",upperdir=" ++ upperDir ++ ",workdir=" ++ workDir
  let args := ["-t", "overlay", "overlay", "-o", options, targetDir]
  ([Event.exec "mount" args],
   if w.execOk "mount" args then .ok () else
     .err (.wrap "mount output" (.execFailed "mount" args)))

/-- Models `setLayers`: load the manifest, prepare directories (NOTE: the source
discards the result of `prepareDirs` at line 140), build the reversed
lower-directory list, and mount the overlay. -/
def setLayers (w : World) (manifestPath baseDir targetDir : String) :
    List Event × Outcome Unit :=
  match w.loadManifestRes manifestPath with
  | .error e => ([], .err (.wrap "读取 manifest.json 时出错" e))
  | .ok layers =>
      let upperDir := fpJoin baseDir "upper"
      let workDir := fpJoin baseDir "work"
      let t1 := (prepareDirs w baseDir [upperDir, workDir, targetDir]).1
      -- the Outcome of prepareDirs is discarded, as in the source (line 140)
      match lowerDirsOf layers with
      | none => (t1, .panicked "index out of range")
      | some lowerDirs =>
          (t1 ++ (mountOverlayFS w lowerDirs upperDir workDir targetDir).1,
           match (mountOverlayFS w lowerDirs upperDir workDir targetDir).2 with
           | .ok _ => .ok ()
           | .err e => .err (.wrap "挂载 overlay 文件系统时出错" e)
           | .panicked m => .panicked m)

/-- The hex portion the source extracts from a digest:
`strings.Split(digest, ":")[1]` (defaulting for the statement of the
panic-free case). -/
def layerHex (l : Layer) : String := ((strSplit l.digest ':').get? 1).getD ""

/-- The lower-directory list the specification prescribes: the manifest
layers in reverse order, each mapped to the layer cache path of its
digest's hex portion. -/
def lowerPathsSpec (layers : List Layer) : List String :=
  layers.reverse.map (fun l => fpJoin layerCacheRoot (layerHex l))

/-- The option string `mountOverlayFS` passes to the overlay mount when
given the reversed lower paths of `layers` under base directory `b`. -/
def overlayOpts (layers : List Layer) (b : String) : String :=
  "lowerdir=" ++ String.intercalate ":" (lowerPathsSpec layers) ++
    ",upperdir=" ++ fpJoin b "upper" ++ ",workdir=" ++ fpJoin b "work"

/-- Recognises the overlay mount invocation among trace events. -/
def isOverlayMount : Event → Bool
  | .exec prog args => prog = "mount" && args.take 2 = ["-t", "overlay"]
  | _ => false

/-- One step of `mountBaseFs`: `mount -t <fstype> <source> <target>`,
wrapping a failure as `errors.Wrapf(err, "mount output: %s", output)`. -/
def mountStep (w : World) (fstype source target : String) :
    List Event × Outcome Unit :=
  let args := ["-t", fstype, source, target]
  ([Event.exec "mount" args],
   if w.execOk "mount" args then .ok () else
     .err (.wrap "mount output" (.execFailed "mount" args)))

/-- The seven pseudo-filesystem mounts of `mountBaseFs`, in source order,
as (fstype, source, target subpath). -/
def baseFsTable : List (String × String × String) :=
  [("proc", "none", "proc"),
   ("sysfs", "none", "sys"),
   ("devtmpfs", "devtmpfs", "dev"),
   ("devpts", "devpts", "dev/pts"),
   ("tmpfs", "shm", "dev/shm"),
   ("tmpfs", "tmpfs", "run"),
   ("tmpfs", "tmpfs", "tmp")]

/-- The fail-fast sequence of mounts over a table of
(fstype, source, target-subpath) entries. -/
def mountSeq (w : World) (targetDir : String) :
    List (String × String × String) → List Event × Outcome Unit
  | [] => ([], .ok ())
  | (fstype, source, sub) :: rest =>
      match (mountStep w fstype source (fpJoin targetDir sub)).2 with
      | .ok _ =>
          ((mountStep w fstype source (fpJoin targetDir sub)).1 ++
             (mountSeq w targetDir rest).1,
           (mountSeq w targetDir rest).2)
      | .err e => ((mountStep w fstype source (fpJoin targetDir sub)).1, .err e)
      | .panicked m =>
          ((mountStep w fstype source (fpJoin targetDir sub)).1, .panicked m)

/-- Models `mountBaseFs`: mount proc, sysfs, devtmpfs, devpts, shm, run and tmp
under the merged target, aborting on the first failure. -/
def mountBaseFs (w : World) (targetDir : String) : List Event × Outcome Unit :=
  mountSeq w targetDir baseFsTable

/-- Models `mountVolume`: fail with the wrapped not-exist error if the host volume
path is absent; otherwise create `merged/volume` and bind-mount onto it. -/
def mountVolume (w : World) (volumeDir targetDir : String) :
    List Event × Outcome Unit :=
  if ¬ w.statExists volumeDir then
    ([Event.statCheck volumeDir],
     .err (.wrap "volume 目录不存在" (.notExist volumeDir)))
  else
    let targetVolumeDir := fpJoin targetDir "volume"
    if w.mkdirOk targetVolumeDir then
      let args := ["--bind", volumeDir, targetVolumeDir]
      ([Event.statCheck volumeDir, Event.mkdirAll targetVolumeDir,
        Event.exec "mount" args],
       if w.execOk "mount" args then .ok () else
         .err (.wrap "mount output" (.execFailed "mount" args)))
    else
      ([Event.statCheck volumeDir, Event.mkdirAll targetVolumeDir],
       .err (.wrap "创建 volume 目录时出错" (.mkdirFailed targetVolumeDir)))

/-- Models `chroot`: chdir into the merged target, self-referential pivot-root,
then lazily unmount the old root from the current directory. -/
def chroot (w : World) (targetDir : String) : List Event × Outcome Unit :=
  if w.chdirOk targetDir then
    if w.pivotOk "." "." then
      let args := ["-l", "."]
      ([Event.chdir targetDir, Event.pivotRoot "." ".", Event.exec "umount" args],
       if w.execOk "umount" args then .ok () else
         .err (.wrap "umount output" (.execFailed "umount" args)))
    else
      ([Event.chdir targetDir, Event.pivotRoot "." "."],
       .err (.wrap "pivot_root 时出错" (.pivotFailed "." ".")))
  else
    ([Event.chdir targetDir], .err (.wrap "chdir 时出错" (.chdirFailed targetDir)))

/-- Value of `syscall.CLONE_NEWUTS` -/
def CLONE_NEWUTS : Nat := 0x04000000
/-- Value of `syscall.CLONE_NEWIPC` -/
def CLONE_NEWIPC : Nat := 0x08000000
/-- Value of `syscall.CLONE_NEWNET` -/
def CLONE_NEWNET : Nat := 0x40000000
/-- Value of `syscall.CLONE_NEWNS` (mount namespace) -/
def CLONE_NEWNS : Nat := 0x00020000
/-- Value of `syscall.CLONE_NEWPID` -/
def CLONE_NEWPID : Nat := 0x20000000

/-- Models `runInNamespace`: the command the parent launches — `/proc/self/exe`
with the `child` sentinel and the four paths, inherited standard streams,
and the five-namespace clone flag set.  The parent performs nothing else;
`cmd.Run()` blocks and its result is surfaced unchanged (see `mainRun`). -/
def runInNamespace (configPath manifestPath baseDir volumeDir : String) :
    LaunchSpec :=
  { prog := "/proc/self/exe"
    args := ["child", configPath, manifestPath, baseDir, volumeDir]
    cloneflags :=
      CLONE_NEWUTS ||| CLONE_NEWIPC ||| CLONE_NEWNET ||| CLONE_NEWNS |||
        CLONE_NEWPID
    inheritStdio := true }

/-- How a run of `childProcess` ends: a stage failed (the formatted message
and error are printed and the function returns), a panic propagated, or all
stages succeeded and `/bin/sh` was launched (carrying its error, if any,
which is printed but changes nothing else). -/
inductive ChildResult where
  | failedAt (printedContext : String) (e : GoError)
  | panicked (msg : String)
  | shellRan (shellErr : Option GoError)
  deriving DecidableEq, Repr

/-- Sequence one pipeline stage before a continuation, mirroring the Go
`if err != nil { fmt.Printf(ctx..., err); return }` pattern of
`childProcess`: on success the continuation's events follow the stage's;
on a returned error the formatted context and error are printed and the
run stops; a panic propagates. -/
def stageThen (s : List Event × Outcome Unit) (ctx : String)
    (k : List Event × ChildResult) : List Event × ChildResult :=
  match s.2 with
  | .ok _ => (s.1 ++ k.1, k.2)
  | .err e => (s.1, .failedAt ctx e)
  | .panicked m => (s.1, .panicked m)

/-- The interactive-shell invocation that ends a fully successful child
run (`exec.Command("/bin/sh")` with inherited standard streams). -/
def shellEvent : Event := Event.exec "/bin/sh" []

/-- Models `childProcess`: the Child Orchestrator — rprivate remount, environment
application, overlay assembly, base filesystem mounts, volume bind, root
switch, then the interactive shell; strictly fail-fast. -/
def childProcess (w : World) (env0 : List (String × String))
    (configPath manifestPath baseDir volumeDir : String) :
    List Event × ChildResult :=
  let targetDir := fpJoin baseDir "merged"
  let envR := setEnv w configPath env0
  stageThen (mountRecPrivate w) "mountRecPrivate 时出错" <|
  stageThen (envR.1, envR.2.2) "设置环境变量时出错" <|
  stageThen (setLayers w manifestPath baseDir targetDir) "设置 layers 时出错" <|
  stageThen (mountBaseFs w targetDir) "挂载基础文件系统时出错" <|
  stageThen (mountVolume w volumeDir targetDir) "挂载 volume 时出错" <|
  stageThen (chroot w targetDir) "chroot 时出错" <|
  ([shellEvent],
   .shellRan (if w.execOk "/bin/sh" [] then none
              else some (.execFailed "/bin/sh" [])))

/-- The four hard-coded parent-mode configuration paths of `main`. -/
def parentConfigPath : String := "/tmp/proxy_pool/config.json"
/-- Hard-coded parent-mode manifest path. -/
def parentManifestPath : String := "/tmp/proxy_pool/manifest.json"
/-- Hard-coded parent-mode overlay base directory. -/
def parentBaseDir : String := "/tmp/proxy_pool/overlay"
/-- Hard-coded parent-mode volume directory. -/
def parentVolumeDir : String := "/tmp/proxy_pool/volume"

/-- What a whole process invocation does and how it ends. -/
inductive MainOutcome where
  /-- Exit via `os.Exit(code)` after the child-argument usage error -/
  | exitCode (code : Nat)
  /-- the child code path ran `childProcess` -/
  | child (r : ChildResult)
  /-- parent: creating the volume directory failed; printed and returned -/
  | parentMkdirFailed (e : GoError)
  /-- parent: spawned the namespaced child and surfaced its result -/
  | parentDone (childResult : Except GoError Unit)
  deriving Repr

/-- Models `main`: dispatch on `os.Args` (`argv` includes the program name at
position 0).  First argument equal to `"child"` selects the child path,
which requires exactly six total arguments; anything else is the parent
path with the four hard-coded configuration paths. -/
def mainRun (w : World) (env0 : List (String × String)) (argv : List String) :
    List Event × MainOutcome :=
  match argv with
  | _prog :: "child" :: rest =>
      match rest with
      | [a, b, c, d] =>
          ((childProcess w env0 a b c d).1, .child (childProcess w env0 a b c d).2)
      | _ => ([], .exitCode 1)
  | _ =>
      if w.mkdirOk parentVolumeDir then
        let spec :=
          runInNamespace parentConfigPath parentManifestPath parentBaseDir
            parentVolumeDir
        ([Event.mkdirAll parentVolumeDir, Event.spawn spec],
         .parentDone (w.spawnResult spec))
      else
        ([Event.mkdirAll parentVolumeDir],
         .parentMkdirFailed (.wrap "创建 volume 目录时出错"
           (.mkdirFailed parentVolumeDir)))

/-- Selects from a trace the external mount-tool invocations and the
pivot-root/umount root-switch operations (everything C-claim 2 calls a
"mount operation"). -/
def isMountOp : Event → Bool
  | .exec prog _ => prog = "mount" || prog = "umount"
  | .pivotRoot _ _ => true
  | _ => false

/-- The mount-operation subsequence of a trace. -/
def mountOps (tr : List Event) : List Event := tr.filter isMountOp

/-- The key an env entry binds: first part of `strings.SplitN(e, "=", 2)`. -/
def entryKey (e : String) : String := (((splitN2Eq e)).get? 0).getD ""

/-- The value an env entry binds: second part of the split. -/
def entryVal (e : String) : String := (((splitN2Eq e)).get? 1).getD ""

/-- The events a successful application of `entries` issues, in order. -/
def envTrace (entries : List String) : List Event :=
  entries.map (fun e => Event.setenv (entryKey e) (entryVal e))

/-- The environment after applying `entries` left to right. -/
def applyEntries (entries : List String) (env : List (String × String)) :
    List (String × String) :=
  entries.foldl (fun env e => envSet env (entryKey e) (entryVal e)) env

/-- A world in which every external operation succeeds, the config holds
one well-formed env entry and the manifest two well-formed layers. -/
def wAll : World where
  execOk _ _ := true
  mkdirOk _ := true
  setenvOk _ _ := true
  chdirOk _ := true
  pivotOk _ _ := true
  statExists _ := true
  loadConfigRes _ := .ok ["PATH=/bin"]
  loadManifestRes _ := .ok [⟨"sha256:aaa", "t", 1⟩, ⟨"sha256:bbb", "t", 2⟩]
  spawnResult _ := .ok ()

/-- A world in which every `os.MkdirAll` fails but everything else
succeeds: exhibits the discarded `prepareDirs` error in `setLayers`. -/
def wBug : World := { wAll with mkdirOk := fun _ => false }

/-- A world in which every external command fails. -/
def wFail : World := { wAll with execOk := fun _ _ => false }

/-- A world in which the host volume path does not exist. -/
def wNoVol : World := { wAll with statExists := fun _ => false }

/-- A world whose config holds a malformed env entry between two
well-formed ones. -/
def wEnvBad : World :=
  { wAll with loadConfigRes := fun _ => .ok ["A=1", "Bad", "C=2"] }

/-- A world whose manifest holds a layer digest with no `:`. -/
def wBadDigest : World :=
  { wAll with loadManifestRes := fun _ => .ok [⟨"nocolon", "t", 0⟩] }

theorem layerPath?_of_wf (l : Layer)
    (h : 2 ≤ (strSplit l.digest ':').length) :
    layerPath? l = some (fpJoin layerCacheRoot (layerHex l)) := by
  unfold layerPath? layerHex
  rcases hg : (strSplit l.digest ':').get? 1 with _ | x
  · exfalso
    rw [List.get?_eq_none] at hg
    omega
  · simp [hg]

theorem layerPath?_of_bad (l : Layer)
    (h : (strSplit l.digest ':').length ≤ 1) :
    layerPath? l = none := by
  unfold layerPath?
  rw [List.get?_eq_none.mpr h]
  rfl

theorem lowerLoop_of_wf (ls : List Layer)
    (h : ∀ l ∈ ls, 2 ≤ (strSplit l.digest ':').length) :
    lowerLoop ls = some (ls.map (fun l => fpJoin layerCacheRoot (layerHex l))) := by
  induction ls with
  | nil => rfl
  | cons a rest ih =>
      have ha := layerPath?_of_wf a (h a (by simp))
      have hrest := ih (fun l hl => h l (by simp [hl]))
      simp [lowerLoop, ha, hrest]

theorem lowerLoop_of_bad (ls : List Layer) (l : Layer) (hl : l ∈ ls)
    (h : layerPath? l = none) : lowerLoop ls = none := by
  induction ls with
  | nil => cases hl
  | cons a rest ih =>
      rcases List.mem_cons.mp hl with rfl | hmem
      · simp [lowerLoop, h]
      · cases hp : layerPath? a <;> simp [lowerLoop, hp, ih hmem]

theorem lowerDirsOf_of_wf (layers : List Layer)
    (h : ∀ l ∈ layers, 2 ≤ (strSplit l.digest ':').length) :
    lowerDirsOf layers = some (lowerPathsSpec layers) := by
  unfold lowerDirsOf lowerPathsSpec
  exact lowerLoop_of_wf layers.reverse (fun l hl => h l (List.mem_reverse.mp hl))

theorem lowerDirsOf_of_bad (layers : List Layer) (l : Layer) (hl : l ∈ layers)
    (h : (strSplit l.digest ':').length ≤ 1) :
    lowerDirsOf layers = none :=
  lowerLoop_of_bad layers.reverse l (List.mem_reverse.mpr hl)
    (layerPath?_of_bad l h)

theorem mkdirEach_no_overlay (w : World) (dirs : List String) :
    ∀ ev ∈ (mkdirEach w dirs).1, isOverlayMount ev = false := by
  induction dirs with
  | nil => simp [mkdirEach]
  | cons d rest ih =>
      intro ev hev
      unfold mkdirEach at hev
      split at hev
      · rcases List.mem_cons.mp hev with rfl | hev
        · rfl
        · exact ih ev hev
      · rcases List.mem_singleton.mp hev with rfl
        rfl

theorem prepareDirs_no_overlay (w : World) (b : String) (dirs : List String) :
    ∀ ev ∈ (prepareDirs w b dirs).1, isOverlayMount ev = false := by
  intro ev hev
  unfold prepareDirs at hev
  split at hev
  · split at hev <;>
      simp only [mountTmpfs, List.cons_append, List.mem_cons,
        List.mem_append, List.mem_singleton, List.not_mem_nil,
        or_false] at hev
    · rcases hev with rfl | (rfl | (hev | hev))
      · rfl
      · rfl
      · exact absurd hev id
      · exact mkdirEach_no_overlay w dirs ev hev
    · rcases hev with rfl | rfl <;> rfl
    · rcases hev with rfl | rfl <;> rfl
  · rcases List.mem_singleton.mp hev with rfl
    rfl

/-- C1: For a manifest whose layer list is `[L0, …, Ln]` (base-first)
with well-formed digests, `setLayers` builds the overlay lower-directory
list as exactly the reverse `[path(Ln), …, path(L0)]`, where `path`
joins the fixed layer cache root with the digest's hex portion, and it
issues exactly one overlay mount, whose options join that list with `:`
as the `lowerdir=` option (followed by `upperdir=` and `workdir=`). -/
theorem setLayers_lowerdirs_reversed (w : World)
    (m b t : String) (layers : List Layer)
    (hm : w.loadManifestRes m = .ok layers)
    (hwf : ∀ l ∈ layers, 2 ≤ (strSplit l.digest ':').length) :
    lowerDirsOf layers = some (lowerPathsSpec layers) ∧
    (setLayers w m b t).1.filter isOverlayMount =
      [Event.exec "mount"
        ["-t", "overlay", "overlay", "-o", overlayOpts layers b, t]] := by
  refine ⟨lowerDirsOf_of_wf layers hwf, ?_⟩
  unfold setLayers
  simp only [hm, lowerDirsOf_of_wf layers hwf]
  simp only [List.filter_append]
  rw [List.filter_eq_nil_iff.mpr
    (fun ev hev => by
      rw [prepareDirs_no_overlay w b [fpJoin b "upper", fpJoin b "work", t] ev hev]
      simp)]
  simp [mountOverlayFS, isOverlayMount, overlayOpts]

/-- Closed witness for C1 at a concrete two-layer manifest. -/
theorem setLayers_lowerdirs_reversed_witness :
    lowerDirsOf [⟨"sha256:aaa", "t", 1⟩, ⟨"sha256:bbb", "t", 2⟩] =
      some ["/tmp/proxy_pool/layers/bbb", "/tmp/proxy_pool/layers/aaa"] ∧
    (setLayers wAll "m" "/base" "/base/merged").1.filter isOverlayMount =
      [Event.exec "mount"
        ["-t", "overlay", "overlay", "-o",
         overlayOpts [⟨"sha256:aaa", "t", 1⟩, ⟨"sha256:bbb", "t", 2⟩] "/base",
         "/base/merged"]] := by
  have h := setLayers_lowerdirs_reversed wAll "m" "/base" "/base/merged"
    [⟨"sha256:aaa", "t", 1⟩, ⟨"sha256:bbb", "t", 2⟩] rfl (by decide)
  exact ⟨h.1.trans (by decide), h.2⟩

/-- C9: A layer digest containing no `:` makes the digest split of
`setLayers` panic with an index-out-of-range error (modelled as the
`panicked` outcome, distinct from every returned error). -/
theorem setLayers_panics_on_bad_digest (w : World)
    (m b t : String) (layers : List Layer) (l : Layer)
    (hm : w.loadManifestRes m = .ok layers) (hl : l ∈ layers)
    (hbad : (strSplit l.digest ':').length ≤ 1) :
    (setLayers w m b t).2 = .panicked "index out of range" := by
  unfold setLayers
  simp only [hm, lowerDirsOf_of_bad layers l hl hbad]

/-- Closed witness for C9: a digest with no colon. -/
theorem setLayers_panics_on_bad_digest_witness :
    (setLayers wBadDigest "m" "/b" "/b/merged").2 =
      .panicked "index out of range" :=
  setLayers_panics_on_bad_digest wBadDigest "m" "/b" "/b/merged"
    [⟨"nocolon", "t", 0⟩] ⟨"nocolon", "t", 0⟩ rfl (by decide) (by decide)

/-- C3, a code bug: `setLayers` discards the result of `prepareDirs`
(source line 140): in a world where creating the base directory fails,
`prepareDirs` returns its wrapped error, yet `setLayers` proceeds to the
overlay mount and reports success, so the error never reaches the caller. -/
theorem setLayers_discards_prepareDirs_error :
    (prepareDirs wBug "/base"
        [fpJoin "/base" "upper", fpJoin "/base" "work", "/base/merged"]).2 =
      .err (.wrap "创建 base 目录时出错" (.mkdirFailed "/base")) ∧
    (setLayers wBug "m" "/base" "/base/merged").2 = .ok () := by
  exact ⟨rfl, rfl⟩

theorem setEnvLoop_of_wf (w : World) (entries : List String) :
    ∀ env, (∀ e ∈ entries, (splitN2Eq e).length = 2) →
    (∀ k v, w.setenvOk k v = true) →
    setEnvLoop w entries env =
      (envTrace entries, applyEntries entries env, .ok ()) := by
  induction entries with
  | nil => intro env _ _; rfl
  | cons e rest ih =>
      intro env hwf hok
      have he : (splitN2Eq e).length = 2 := hwf e (by simp)
      simp only [setEnvLoop, he, hok, if_true, ite_true]
      rw [ih _ (fun x hx => hwf x (by simp [hx])) hok]
      rfl

theorem setEnvLoop_malformed (w : World) (pre : List String) :
    ∀ env bad post, (∀ e ∈ pre, (splitN2Eq e).length = 2) →
    (∀ k v, w.setenvOk k v = true) →
    (splitN2Eq bad).length ≠ 2 →
    setEnvLoop w (pre ++ bad :: post) env =
      (envTrace pre, applyEntries pre env,
       .err (.invalidEnv ("无效的环境变量: " ++ bad))) := by
  induction pre with
  | nil =>
      intro env bad post _ _ hbad
      simp only [List.nil_append, setEnvLoop, hbad, if_false, ite_false]
      rfl
  | cons e rest ih =>
      intro env bad post hwf hok hbad
      have he : (splitN2Eq e).length = 2 := hwf e (by simp)
      simp only [List.cons_append, setEnvLoop, he, hok, if_true, ite_true,
        List.append_eq]
      rw [ih _ bad post (fun x hx => hwf x (by simp [hx])) hok hbad]
      rfl

/-- C4: `setEnv` applies environment entries left to right; an entry
that does not split into exactly two parts on the first `=` fails with a
validation-class error, every entry before it stays applied (the resulting
environment is exactly the fold over the prefix), and no later entry is
applied (the event trace covers exactly the prefix). -/
theorem setEnv_malformed_failfast (w : World) (cfg : String)
    (env0 : List (String × String)) (pre : List String) (bad : String)
    (post : List String)
    (hcfg : w.loadConfigRes cfg = .ok (pre ++ bad :: post))
    (hok : ∀ k v, w.setenvOk k v = true)
    (hpre : ∀ e ∈ pre, (splitN2Eq e).length = 2)
    (hbad : (splitN2Eq bad).length ≠ 2) :
    setEnv w cfg env0 =
      (envTrace pre, applyEntries pre env0,
       .err (.invalidEnv ("无效的环境变量: " ++ bad))) ∧
    GoError.isValidationClass (.invalidEnv ("无效的环境变量: " ++ bad)) = true := by
  refine ⟨?_, rfl⟩
  unfold setEnv
  simp only [hcfg]
  exact setEnvLoop_malformed w pre env0 bad post hpre hok hbad

/-- Closed witness for C4: `["A=1", "Bad", "C=2"]` fails at `"Bad"` with
`A` bound and `C` never applied. -/
theorem setEnv_malformed_failfast_witness :
    setEnv wEnvBad "cfg" [] =
      (envTrace ["A=1"], applyEntries ["A=1"] [],
       .err (.invalidEnv ("无效的环境变量: " ++ "Bad"))) ∧
    GoError.isValidationClass (.invalidEnv ("无效的环境变量: " ++ "Bad")) = true :=
  setEnv_malformed_failfast wEnvBad "cfg" [] ["A=1"] "Bad" ["C=2"] rfl
    (fun _ _ => rfl) (by decide) (by decide)

/-- C7: `mountVolume` on a nonexistent host path fails with the
wrapped not-found error after only the existence check — before creating
`merged/volume` and before the bind mount; on an existing path it creates
`merged/volume` and bind-mounts the host path onto it. -/
theorem mountVolume_notfound_guard (w : World) (v t : String) :
    (w.statExists v = false →
      mountVolume w v t =
        ([Event.statCheck v],
         .err (.wrap "volume 目录不存在" (.notExist v))) ∧
      GoError.isNotFoundClass (.wrap "volume 目录不存在" (.notExist v)) = true) ∧
    (w.statExists v = true → w.mkdirOk (fpJoin t "volume") = true →
      w.execOk "mount" ["--bind", v, fpJoin t "volume"] = true →
      mountVolume w v t =
        ([Event.statCheck v, Event.mkdirAll (fpJoin t "volume"),
          Event.exec "mount" ["--bind", v, fpJoin t "volume"]], .ok ())) := by
  constructor
  · intro h
    refine ⟨?_, rfl⟩
    simp [mountVolume, h]
  · intro h hmk hexec
    simp [mountVolume, h, hmk, hexec]

/-- Closed witness for C7: both branches at concrete worlds. -/
theorem mountVolume_notfound_guard_witness :
    (mountVolume wNoVol "/vol" "/t" =
       ([Event.statCheck "/vol"],
        .err (.wrap "volume 目录不存在" (.notExist "/vol"))) ∧
     GoError.isNotFoundClass (.wrap "volume 目录不存在" (.notExist "/vol")) =
       true) ∧
    mountVolume wAll "/vol" "/t" =
      ([Event.statCheck "/vol", Event.mkdirAll (fpJoin "/t" "volume"),
        Event.exec "mount" ["--bind", "/vol", fpJoin "/t" "volume"]], .ok ()) :=
  ⟨(mountVolume_notfound_guard wNoVol "/vol" "/t").1 rfl,
   (mountVolume_notfound_guard wAll "/vol" "/t").2 rfl rfl rfl⟩

/-- C6: With the child sentinel as first argument, any count of
trailing positional arguments other than four exits with status 1 and an
empty event trace (no mount attempted); exactly four runs the Child
Orchestrator directly on those four paths. -/
theorem main_child_arg_validation (w : World)
    (env0 : List (String × String)) (prog : String) (rest : List String) :
    (rest.length ≠ 4 →
      mainRun w env0 (prog :: "child" :: rest) = ([], .exitCode 1)) ∧
    (∀ a b c d, rest = [a, b, c, d] →
      mainRun w env0 (prog :: "child" :: rest) =
        ((childProcess w env0 a b c d).1,
         .child (childProcess w env0 a b c d).2)) := by
  constructor
  · intro hne
    rcases rest with _ | ⟨a, _ | ⟨b, _ | ⟨c, _ | ⟨d, _ | ⟨e, rest⟩⟩⟩⟩⟩
    · rfl
    · rfl
    · rfl
    · rfl
    · exact absurd rfl hne
    · rfl
  · rintro a b c d rfl
    rfl

/-- Closed witness for C6: three trailing arguments exit, four run the
child orchestrator. -/
theorem main_child_arg_validation_witness :
    mainRun wAll [] ["prog", "child", "x"] = ([], .exitCode 1) ∧
    mainRun wAll [] ["prog", "child", "c", "m", "/b", "/v"] =
      ((childProcess wAll [] "c" "m" "/b" "/v").1,
       .child (childProcess wAll [] "c" "m" "/b" "/v").2) :=
  ⟨(main_child_arg_validation wAll [] "prog" ["x"]).1 (by decide),
   (main_child_arg_validation wAll [] "prog" ["c", "m", "/b", "/v"]).2
     "c" "m" "/b" "/v" rfl⟩

/-- C10: An invocation whose second argument (`os.Args[1]`) is absent
or differs from the child sentinel takes the parent code path: it behaves
exactly like the no-argument invocation, with the four hard-coded
configuration paths in the spawned child's arguments — extra arguments are
silently ignored and never produce a usage error. -/
theorem main_parent_path_ignores_args (w : World)
    (env0 : List (String × String)) (argv : List String)
    (h : argv.get? 1 ≠ some "child") :
    mainRun w env0 argv = mainRun w env0 [] ∧
    (w.mkdirOk parentVolumeDir = true →
      mainRun w env0 argv =
        ([Event.mkdirAll parentVolumeDir,
          Event.spawn (runInNamespace parentConfigPath parentManifestPath
            parentBaseDir parentVolumeDir)],
         .parentDone (w.spawnResult (runInNamespace parentConfigPath
           parentManifestPath parentBaseDir parentVolumeDir)))) := by
  have hmain : mainRun w env0 argv = mainRun w env0 [] := by
    rcases argv with _ | ⟨p, _ | ⟨a1, rest⟩⟩
    · rfl
    · rfl
    · have hne : a1 ≠ "child" := by
        intro hc
        exact h (by simp [hc])
      unfold mainRun
      split
      · next heq =>
          exfalso
          apply hne
          have := (List.cons.injEq _ _ _ _).mp heq
          exact ((List.cons.injEq _ _ _ _).mp this.2).1
      · rfl
  refine ⟨hmain, fun hmk => ?_⟩
  rw [hmain]
  simp [mainRun, hmk]

/-- Closed witness for C10: two extra unrecognized arguments. -/
theorem main_parent_path_ignores_args_witness :
    mainRun wAll [] ["prog", "foo", "bar"] = mainRun wAll [] [] ∧
    mainRun wAll [] ["prog", "foo", "bar"] =
      ([Event.mkdirAll parentVolumeDir,
        Event.spawn (runInNamespace parentConfigPath parentManifestPath
          parentBaseDir parentVolumeDir)],
       .parentDone (wAll.spawnResult (runInNamespace parentConfigPath
         parentManifestPath parentBaseDir parentVolumeDir))) :=
  ⟨(main_parent_path_ignores_args wAll [] ["prog", "foo", "bar"]
      (by decide)).1,
   (main_parent_path_ignores_args wAll [] ["prog", "foo", "bar"]
      (by decide)).2 rfl⟩

/-- C8: The Namespace Launcher re-executes the program with the
sentinel and the four paths as positional arguments, inherits standard
streams, and requests exactly the five namespaces {UTS, IPC, NET, mount,
PID} (the clone flag word is their bitwise OR, `0x6C020000`); the parent
(no-argument invocation) performs no mount operation itself, blocks on the
spawn, and surfaces the spawned child's result as its own outcome. -/
theorem runInNamespace_launch_contract (w : World)
    (env0 : List (String × String)) (c m b v : String)
    (hmk : w.mkdirOk parentVolumeDir = true) :
    runInNamespace c m b v =
      { prog := "/proc/self/exe"
        args := ["child", c, m, b, v]
        cloneflags := CLONE_NEWUTS ||| CLONE_NEWIPC ||| CLONE_NEWNET |||
          CLONE_NEWNS ||| CLONE_NEWPID
        inheritStdio := true } ∧
    (runInNamespace c m b v).cloneflags = 0x6C020000 ∧
    mainRun w env0 [] =
      ([Event.mkdirAll parentVolumeDir,
        Event.spawn (runInNamespace parentConfigPath parentManifestPath
          parentBaseDir parentVolumeDir)],
       .parentDone (w.spawnResult (runInNamespace parentConfigPath
         parentManifestPath parentBaseDir parentVolumeDir))) ∧
    mountOps (mainRun w env0 []).1 = [] := by
  refine ⟨rfl, ?_, ?_, ?_⟩
  · show CLONE_NEWUTS ||| CLONE_NEWIPC ||| CLONE_NEWNET ||| CLONE_NEWNS |||
      CLONE_NEWPID = 0x6C020000
    decide
  · simp [mainRun, hmk]
  · simp [mainRun, hmk, mountOps, isMountOp]

/-- Closed witness for C8 at a concrete world. -/
theorem runInNamespace_launch_contract_witness :
    runInNamespace "c" "m" "/b" "/v" =
      { prog := "/proc/self/exe"
        args := ["child", "c", "m", "/b", "/v"]
        cloneflags := CLONE_NEWUTS ||| CLONE_NEWIPC ||| CLONE_NEWNET |||
          CLONE_NEWNS ||| CLONE_NEWPID
        inheritStdio := true } ∧
    (runInNamespace "c" "m" "/b" "/v").cloneflags = 0x6C020000 ∧
    mainRun wAll [] [] =
      ([Event.mkdirAll parentVolumeDir,
        Event.spawn (runInNamespace parentConfigPath parentManifestPath
          parentBaseDir parentVolumeDir)],
       .parentDone (wAll.spawnResult (runInNamespace parentConfigPath
         parentManifestPath parentBaseDir parentVolumeDir))) ∧
    mountOps (mainRun wAll [] []).1 = [] :=
  runInNamespace_launch_contract wAll [] "c" "m" "/b" "/v" rfl

theorem mkdirEach_events (w : World) (dirs : List String) :
    ∀ ev ∈ (mkdirEach w dirs).1, ∃ p, ev = Event.mkdirAll p := by
  induction dirs with
  | nil => simp [mkdirEach]
  | cons d rest ih =>
      intro ev hev
      unfold mkdirEach at hev
      split at hev
      · rcases List.mem_cons.mp hev with rfl | hev
        · exact ⟨d, rfl⟩
        · exact ih ev hev
      · rcases List.mem_singleton.mp hev with rfl
        exact ⟨d, rfl⟩

theorem prepareDirs_events (w : World) (b : String) (dirs : List String) :
    ∀ ev ∈ (prepareDirs w b dirs).1,
      (∃ p, ev = Event.mkdirAll p) ∨ (∃ args, ev = Event.exec "mount" args) := by
  intro ev hev
  unfold prepareDirs at hev
  split at hev
  · split at hev <;>
      simp only [mountTmpfs, List.cons_append, List.mem_cons,
        List.mem_append, List.mem_singleton, List.not_mem_nil,
        or_false] at hev
    · rcases hev with rfl | (rfl | (hev | hev))
      · exact .inl ⟨b, rfl⟩
      · exact .inr ⟨_, rfl⟩
      · exact absurd hev id
      · rcases mkdirEach_events w dirs ev hev with ⟨p, rfl⟩
        exact .inl ⟨p, rfl⟩
    · rcases hev with rfl | rfl
      · exact .inl ⟨b, rfl⟩
      · exact .inr ⟨_, rfl⟩
    · rcases hev with rfl | rfl
      · exact .inl ⟨b, rfl⟩
      · exact .inr ⟨_, rfl⟩
  · rcases List.mem_singleton.mp hev with rfl
    exact .inl ⟨b, rfl⟩

theorem setLayers_events (w : World) (m b t : String) :
    ∀ ev ∈ (setLayers w m b t).1,
      (∃ p, ev = Event.mkdirAll p) ∨ (∃ args, ev = Event.exec "mount" args) := by
  intro ev hev
  unfold setLayers at hev
  split at hev
  · simp at hev
  · split at hev
    · exact prepareDirs_events w b _ ev hev
    · rcases List.mem_append.mp hev with hev | hev
      · exact prepareDirs_events w b _ ev hev
      · rcases List.mem_singleton.mp hev with rfl
        exact .inr ⟨_, rfl⟩

theorem mountSeq_events (w : World) (t : String)
    (table : List (String × String × String)) :
    ∀ ev ∈ (mountSeq w t table).1, ∃ args, ev = Event.exec "mount" args := by
  induction table with
  | nil => simp [mountSeq]
  | cons entry rest ih =>
      obtain ⟨f, s, sub⟩ := entry
      intro ev hev
      unfold mountSeq at hev
      split at hev <;>
        simp only [mountStep, List.cons_append, List.nil_append,
          List.mem_cons, List.mem_singleton, List.not_mem_nil,
          or_false] at hev
      · rcases hev with rfl | hev
        · exact ⟨_, rfl⟩
        · exact ih ev hev
      · rcases hev with rfl
        exact ⟨_, rfl⟩
      · rcases hev with rfl
        exact ⟨_, rfl⟩

theorem mountVolume_events (w : World) (v t : String) :
    ∀ ev ∈ (mountVolume w v t).1,
      ev = Event.statCheck v ∨ (∃ p, ev = Event.mkdirAll p) ∨
        (∃ args, ev = Event.exec "mount" args) := by
  intro ev hev
  unfold mountVolume at hev
  dsimp only at hev
  split at hev
  · rcases List.mem_singleton.mp hev with rfl
    exact .inl rfl
  · split at hev <;>
      simp only [List.mem_cons, List.mem_singleton, List.not_mem_nil,
        or_false] at hev
    · rcases hev with rfl | (rfl | rfl)
      · exact .inl rfl
      · exact .inr (.inl ⟨_, rfl⟩)
      · exact .inr (.inr ⟨_, rfl⟩)
    · rcases hev with rfl | rfl
      · exact .inl rfl
      · exact .inr (.inl ⟨_, rfl⟩)

theorem chroot_events (w : World) (t : String) :
    ∀ ev ∈ (chroot w t).1,
      ev = Event.chdir t ∨ ev = Event.pivotRoot "." "." ∨
        (∃ args, ev = Event.exec "umount" args) := by
  intro ev hev
  unfold chroot at hev
  dsimp only at hev
  split at hev
  · split at hev <;>
      simp only [List.mem_cons, List.mem_singleton, List.not_mem_nil,
        or_false] at hev
    · rcases hev with rfl | (rfl | rfl)
      · exact .inl rfl
      · exact .inr (.inl rfl)
      · exact .inr (.inr ⟨_, rfl⟩)
    · rcases hev with rfl | rfl
      · exact .inl rfl
      · exact .inr (.inl rfl)
  · rcases List.mem_singleton.mp hev with rfl
    exact .inl rfl

theorem noShell_mountRecPrivate (w : World) :
    shellEvent ∉ (mountRecPrivate w).1 := by
  simp [mountRecPrivate, shellEvent]

theorem noShell_setEnvLoop (w : World) (entries : List String) :
    ∀ env, shellEvent ∉ (setEnvLoop w entries env).1 := by
  induction entries with
  | nil => intro env; simp [setEnvLoop]
  | cons e rest ih =>
      intro env hmem
      unfold setEnvLoop at hmem
      dsimp only at hmem
      split at hmem
      · split at hmem
        · rcases List.mem_cons.mp hmem with heq | hmem
          · exact absurd heq (by simp [shellEvent])
          · exact ih _ hmem
        · rcases List.mem_singleton.mp hmem with heq
          exact absurd heq (by simp [shellEvent])
      · simp at hmem

theorem noShell_setEnv (w : World) (cfg : String)
    (env : List (String × String)) : shellEvent ∉ (setEnv w cfg env).1 := by
  unfold setEnv
  cases h : w.loadConfigRes cfg with
  | error e => simp
  | ok envs => exact noShell_setEnvLoop w envs env

theorem noShell_setLayers (w : World) (m b t : String) :
    shellEvent ∉ (setLayers w m b t).1 := by
  intro hmem
  rcases setLayers_events w m b t _ hmem with ⟨p, h⟩ | ⟨args, h⟩ <;>
    simp [shellEvent] at h

theorem noShell_mountBaseFs (w : World) (t : String) :
    shellEvent ∉ (mountBaseFs w t).1 := by
  intro hmem
  rcases mountSeq_events w t baseFsTable _ hmem with ⟨args, h⟩
  simp [shellEvent] at h

theorem noShell_mountVolume (w : World) (v t : String) :
    shellEvent ∉ (mountVolume w v t).1 := by
  intro hmem
  rcases mountVolume_events w v t _ hmem with h | (⟨p, h⟩ | ⟨args, h⟩) <;>
    simp [shellEvent] at h

theorem noShell_chroot (w : World) (t : String) :
    shellEvent ∉ (chroot w t).1 := by
  intro hmem
  rcases chroot_events w t _ hmem with h | (h | ⟨args, h⟩) <;>
    simp [shellEvent] at h

theorem stageThen_noShell (s : List Event × Outcome Unit) (ctx : String)
    (k : List Event × ChildResult)
    (hs : shellEvent ∉ s.1)
    (hk : ∀ c e, k.2 = .failedAt c e → shellEvent ∉ k.1) :
    ∀ c e, (stageThen s ctx k).2 = .failedAt c e →
      shellEvent ∉ (stageThen s ctx k).1 := by
  intro c e h hmem
  unfold stageThen at h hmem
  rcases ho : s.2 with _ | e' | msg <;> simp only [ho] at h hmem
  · rcases List.mem_append.mp hmem with hm | hm
    · exact hs hm
    · exact hk c e h hm
  · exact hs hmem
  · exact ChildResult.noConfusion h

theorem stageThen_ok_eq (s : List Event × Outcome Unit) (ctx : String)
    (k : List Event × ChildResult) (a : Unit) (h : s.2 = .ok a) :
    stageThen s ctx k = (s.1 ++ k.1, k.2) := by
  unfold stageThen
  rw [h]

theorem stageThen_err_eq (s : List Event × Outcome Unit) (ctx : String)
    (k : List Event × ChildResult) (e : GoError) (h : s.2 = .err e) :
    stageThen s ctx k = (s.1, .failedAt ctx e) := by
  unfold stageThen
  rw [h]

theorem stageThen_panic_eq (s : List Event × Outcome Unit) (ctx : String)
    (k : List Event × ChildResult) (msg : String)
    (h : s.2 = .panicked msg) :
    stageThen s ctx k = (s.1, .panicked msg) := by
  unfold stageThen
  rw [h]

/-- C5: If any stage of the Child Orchestrator fails, `childProcess`
ends in `failedAt` (the printed wrapped error), the interactive shell
invocation never appears in the event trace, and the trace is exactly
the concatenation of the traces of the stages up to and including the
failing one — identified by the printed context — so no subsequent
stage is attempted. -/
theorem childProcess_failfast_no_shell (w : World)
    (env0 : List (String × String)) (c m b v ctx : String) (e : GoError)
    (h : (childProcess w env0 c m b v).2 = .failedAt ctx e) :
    shellEvent ∉ (childProcess w env0 c m b v).1 ∧
    ((ctx = "mountRecPrivate 时出错" ∧
        (childProcess w env0 c m b v).1 = (mountRecPrivate w).1) ∨
     (ctx = "设置环境变量时出错" ∧
        (childProcess w env0 c m b v).1 =
          (mountRecPrivate w).1 ++ (setEnv w c env0).1) ∨
     (ctx = "设置 layers 时出错" ∧
        (childProcess w env0 c m b v).1 =
          (mountRecPrivate w).1 ++ ((setEnv w c env0).1 ++
            (setLayers w m b (fpJoin b "merged")).1)) ∨
     (ctx = "挂载基础文件系统时出错" ∧
        (childProcess w env0 c m b v).1 =
          (mountRecPrivate w).1 ++ ((setEnv w c env0).1 ++
            ((setLayers w m b (fpJoin b "merged")).1 ++
              (mountBaseFs w (fpJoin b "merged")).1))) ∨
     (ctx = "挂载 volume 时出错" ∧
        (childProcess w env0 c m b v).1 =
          (mountRecPrivate w).1 ++ ((setEnv w c env0).1 ++
            ((setLayers w m b (fpJoin b "merged")).1 ++
              ((mountBaseFs w (fpJoin b "merged")).1 ++
                (mountVolume w v (fpJoin b "merged")).1)))) ∨
     (ctx = "chroot 时出错" ∧
        (childProcess w env0 c m b v).1 =
          (mountRecPrivate w).1 ++ ((setEnv w c env0).1 ++
            ((setLayers w m b (fpJoin b "merged")).1 ++
              ((mountBaseFs w (fpJoin b "merged")).1 ++
                ((mountVolume w v (fpJoin b "merged")).1 ++
                  (chroot w (fpJoin b "merged")).1)))))) := by
  have key : ∀ ctx e, (childProcess w env0 c m b v).2 = .failedAt ctx e →
      shellEvent ∉ (childProcess w env0 c m b v).1 := by
    unfold childProcess
    apply stageThen_noShell _ _ _ (noShell_mountRecPrivate w)
    apply stageThen_noShell _ _ _ (noShell_setEnv w c env0)
    apply stageThen_noShell _ _ _ (noShell_setLayers w m b _)
    apply stageThen_noShell _ _ _ (noShell_mountBaseFs w _)
    apply stageThen_noShell _ _ _ (noShell_mountVolume w v _)
    apply stageThen_noShell _ _ _ (noShell_chroot w _)
    intro c' e' h'
    simp at h'
  refine ⟨key ctx e h, ?_⟩
  unfold childProcess at h ⊢
  dsimp only at h ⊢
  rcases o1 : (mountRecPrivate w).2 with a1 | e1 | m1
  · rw [stageThen_ok_eq _ _ _ a1 o1] at h ⊢
    dsimp only at h ⊢
    rcases o2 : (setEnv w c env0).2.2 with a2 | e2 | m2
    · rw [stageThen_ok_eq _ _ _ a2 o2] at h
      rw [stageThen_ok_eq _ _ _ a2 rfl]
      dsimp only at h ⊢
      rcases o3 : (setLayers w m b (fpJoin b "merged")).2 with a3 | e3 | m3
      · rw [stageThen_ok_eq _ _ _ a3 o3] at h ⊢
        dsimp only at h ⊢
        rcases o4 : (mountBaseFs w (fpJoin b "merged")).2 with a4 | e4 | m4
        · rw [stageThen_ok_eq _ _ _ a4 o4] at h ⊢
          dsimp only at h ⊢
          rcases o5 : (mountVolume w v (fpJoin b "merged")).2 with a5 | e5 | m5
          · rw [stageThen_ok_eq _ _ _ a5 o5] at h ⊢
            dsimp only at h ⊢
            rcases o6 : (chroot w (fpJoin b "merged")).2 with a6 | e6 | m6
            · rw [stageThen_ok_eq _ _ _ a6 o6] at h
              dsimp only at h
              exact ChildResult.noConfusion h
            · rw [stageThen_err_eq _ _ _ e6 o6] at h ⊢
              dsimp only at h ⊢
              injection h with hctx he
              exact .inr (.inr (.inr (.inr (.inr ⟨hctx.symm, rfl⟩))))
            · rw [stageThen_panic_eq _ _ _ m6 o6] at h
              dsimp only at h
              exact ChildResult.noConfusion h
          · rw [stageThen_err_eq _ _ _ e5 o5] at h ⊢
            dsimp only at h ⊢
            injection h with hctx he
            exact .inr (.inr (.inr (.inr (.inl ⟨hctx.symm, rfl⟩))))
          · rw [stageThen_panic_eq _ _ _ m5 o5] at h
            dsimp only at h
            exact ChildResult.noConfusion h
        · rw [stageThen_err_eq _ _ _ e4 o4] at h ⊢
          dsimp only at h ⊢
          injection h with hctx he
          exact .inr (.inr (.inr (.inl ⟨hctx.symm, rfl⟩)))
        · rw [stageThen_panic_eq _ _ _ m4 o4] at h
          dsimp only at h
          exact ChildResult.noConfusion h
      · rw [stageThen_err_eq _ _ _ e3 o3] at h ⊢
        dsimp only at h ⊢
        injection h with hctx he
        exact .inr (.inr (.inl ⟨hctx.symm, rfl⟩))
      · rw [stageThen_panic_eq _ _ _ m3 o3] at h
        dsimp only at h
        exact ChildResult.noConfusion h
    · rw [stageThen_err_eq _ _ _ e2 o2] at h
      rw [stageThen_err_eq _ _ _ e2 rfl]
      dsimp only at h ⊢
      injection h with hctx he
      exact .inr (.inl ⟨hctx.symm, rfl⟩)
    · rw [stageThen_panic_eq _ _ _ m2 o2] at h
      dsimp only at h
      exact ChildResult.noConfusion h
  · rw [stageThen_err_eq _ _ _ e1 o1] at h ⊢
    dsimp only at h ⊢
    injection h with hctx he
    exact .inl ⟨hctx.symm, rfl⟩
  · rw [stageThen_panic_eq _ _ _ m1 o1] at h
    dsimp only at h
    exact ChildResult.noConfusion h

/-- Closed witness for C5: a world where the rprivate remount fails; the
trace is exactly that single stage's trace and holds no shell launch. -/
theorem childProcess_failfast_no_shell_witness :
    (childProcess wFail [] "c" "m" "/b" "/v").2 =
      .failedAt "mountRecPrivate 时出错"
        (.wrap "mount output" (.execFailed "mount" ["--make-rprivate", "/"])) ∧
    shellEvent ∉ (childProcess wFail [] "c" "m" "/b" "/v").1 ∧
    (childProcess wFail [] "c" "m" "/b" "/v").1 = (mountRecPrivate wFail).1 := by
  have hthm := childProcess_failfast_no_shell wFail [] "c" "m" "/b" "/v"
    "mountRecPrivate 时出错"
    (.wrap "mount output" (.execFailed "mount" ["--make-rprivate", "/"])) rfl
  refine ⟨rfl, hthm.1, ?_⟩
  rcases hthm.2 with ⟨_, htr⟩ | ⟨hc, _⟩ | ⟨hc, _⟩ | ⟨hc, _⟩ | ⟨hc, _⟩ | ⟨hc, _⟩
  · exact htr
  all_goals exact absurd hc (by decide)

theorem mountRecPrivate_ok (w : World)
    (h : w.execOk "mount" ["--make-rprivate", "/"] = true) :
    mountRecPrivate w =
      ([Event.exec "mount" ["--make-rprivate", "/"]], .ok ()) := by
  simp [mountRecPrivate, h]

theorem setEnv_ok (w : World) (cfg : String) (env0 : List (String × String))
    (envs : List String)
    (hcfg : w.loadConfigRes cfg = .ok envs)
    (hwf : ∀ e ∈ envs, (splitN2Eq e).length = 2)
    (hok : ∀ k v, w.setenvOk k v = true) :
    setEnv w cfg env0 = (envTrace envs, applyEntries envs env0, .ok ()) := by
  unfold setEnv
  simp only [hcfg]
  exact setEnvLoop_of_wf w envs env0 hwf hok

theorem mkdirEach_ok (w : World) (dirs : List String)
    (h : ∀ d ∈ dirs, w.mkdirOk d = true) :
    mkdirEach w dirs = (dirs.map Event.mkdirAll, .ok ()) := by
  induction dirs with
  | nil => rfl
  | cons d rest ih =>
      have hd := h d (by simp)
      simp [mkdirEach, hd, ih (fun x hx => h x (by simp [hx]))]

theorem prepareDirs_ok (w : World) (b : String) (dirs : List String)
    (hmk : w.mkdirOk b = true) (hdirs : ∀ d ∈ dirs, w.mkdirOk d = true)
    (htm : w.execOk "mount" ["-t", "tmpfs", "tmpfs", b] = true) :
    prepareDirs w b dirs =
      (Event.mkdirAll b :: Event.exec "mount" ["-t", "tmpfs", "tmpfs", b] ::
        dirs.map Event.mkdirAll, .ok ()) := by
  simp [prepareDirs, hmk, mountTmpfs, htm, mkdirEach_ok w dirs hdirs]

theorem setLayers_ok (w : World) (m b t : String) (layers : List Layer)
    (hm : w.loadManifestRes m = .ok layers)
    (hwf : ∀ l ∈ layers, 2 ≤ (strSplit l.digest ':').length)
    (hmk : ∀ p, w.mkdirOk p = true)
    (hex : ∀ p a, w.execOk p a = true) :
    setLayers w m b t =
      ([Event.mkdirAll b, Event.exec "mount" ["-t", "tmpfs", "tmpfs", b],
        Event.mkdirAll (fpJoin b "upper"), Event.mkdirAll (fpJoin b "work"),
        Event.mkdirAll t,
        Event.exec "mount" ["-t", "overlay", "overlay", "-o",
          overlayOpts layers b, t]], .ok ()) := by
  unfold setLayers
  simp only [hm, lowerDirsOf_of_wf layers hwf]
  rw [prepareDirs_ok w b _ (hmk b) (fun d _ => hmk d) (hex _ _)]
  simp [mountOverlayFS, hex, overlayOpts]

theorem mountSeq_ok (w : World) (t : String)
    (table : List (String × String × String))
    (hex : ∀ p a, w.execOk p a = true) :
    mountSeq w t table =
      (table.map (fun x => Event.exec "mount" ["-t", x.1, x.2.1, fpJoin t x.2.2]),
       .ok ()) := by
  induction table with
  | nil => rfl
  | cons entry rest ih =>
      obtain ⟨f, s, sub⟩ := entry
      simp [mountSeq, mountStep, hex, ih]

theorem mountBaseFs_ok (w : World) (t : String)
    (hex : ∀ p a, w.execOk p a = true) :
    mountBaseFs w t =
      ([Event.exec "mount" ["-t", "proc", "none", fpJoin t "proc"],
        Event.exec "mount" ["-t", "sysfs", "none", fpJoin t "sys"],
        Event.exec "mount" ["-t", "devtmpfs", "devtmpfs", fpJoin t "dev"],
        Event.exec "mount" ["-t", "devpts", "devpts", fpJoin t "dev/pts"],
        Event.exec "mount" ["-t", "tmpfs", "shm", fpJoin t "dev/shm"],
        Event.exec "mount" ["-t", "tmpfs", "tmpfs", fpJoin t "run"],
        Event.exec "mount" ["-t", "tmpfs", "tmpfs", fpJoin t "tmp"]],
       .ok ()) := by
  rw [mountBaseFs, mountSeq_ok w t baseFsTable hex]
  rfl

theorem mountVolume_ok (w : World) (v t : String)
    (hst : w.statExists v = true)
    (hmk : w.mkdirOk (fpJoin t "volume") = true)
    (hex : w.execOk "mount" ["--bind", v, fpJoin t "volume"] = true) :
    mountVolume w v t =
      ([Event.statCheck v, Event.mkdirAll (fpJoin t "volume"),
        Event.exec "mount" ["--bind", v, fpJoin t "volume"]], .ok ()) := by
  simp [mountVolume, hst, hmk, hex]

theorem chroot_ok (w : World) (t : String)
    (hch : w.chdirOk t = true) (hpv : w.pivotOk "." "." = true)
    (hex : w.execOk "umount" ["-l", "."] = true) :
    chroot w t =
      ([Event.chdir t, Event.pivotRoot "." ".",
        Event.exec "umount" ["-l", "."]], .ok ()) := by
  simp [chroot, hch, hpv, hex]

theorem mountOps_envTrace (entries : List String) :
    (envTrace entries).filter isMountOp = [] := by
  rw [List.filter_eq_nil_iff]
  intro a ha
  rcases List.mem_map.mp ha with ⟨e, _, rfl⟩
  simp [isMountOp]

/-- C2: On a run of the Child Orchestrator in which every stage
succeeds, the mount operations issued (external `mount`/`umount`
invocations plus the pivot-root) are exactly, in order: the recursive
private remount, the tmpfs on the base directory, the single overlay
mount, the seven pseudo-filesystem mounts (proc, sysfs, devtmpfs, devpts,
shm, run, tmp), the volume bind mount, the self-referential pivot-root,
and the lazy unmount of the old root — nothing else, nothing omitted. -/
theorem childProcess_mount_sequence (w : World)
    (env0 : List (String × String)) (c m b v : String)
    (envs : List String) (layers : List Layer)
    (hex : ∀ p a, w.execOk p a = true)
    (hmk : ∀ p, w.mkdirOk p = true)
    (hse : ∀ k v', w.setenvOk k v' = true)
    (hch : ∀ p, w.chdirOk p = true)
    (hpv : ∀ x y, w.pivotOk x y = true)
    (hst : w.statExists v = true)
    (hcfg : w.loadConfigRes c = .ok envs)
    (hwfenv : ∀ e ∈ envs, (splitN2Eq e).length = 2)
    (hm : w.loadManifestRes m = .ok layers)
    (hwf : ∀ l ∈ layers, 2 ≤ (strSplit l.digest ':').length) :
    mountOps (childProcess w env0 c m b v).1 =
      [Event.exec "mount" ["--make-rprivate", "/"],
       Event.exec "mount" ["-t", "tmpfs", "tmpfs", b],
       Event.exec "mount" ["-t", "overlay", "overlay", "-o",
         overlayOpts layers b, fpJoin b "merged"],
       Event.exec "mount" ["-t", "proc", "none",
         fpJoin (fpJoin b "merged") "proc"],
       Event.exec "mount" ["-t", "sysfs", "none",
         fpJoin (fpJoin b "merged") "sys"],
       Event.exec "mount" ["-t", "devtmpfs", "devtmpfs",
         fpJoin (fpJoin b "merged") "dev"],
       Event.exec "mount" ["-t", "devpts", "devpts",
         fpJoin (fpJoin b "merged") "dev/pts"],
       Event.exec "mount" ["-t", "tmpfs", "shm",
         fpJoin (fpJoin b "merged") "dev/shm"],
       Event.exec "mount" ["-t", "tmpfs", "tmpfs",
         fpJoin (fpJoin b "merged") "run"],
       Event.exec "mount" ["-t", "tmpfs", "tmpfs",
         fpJoin (fpJoin b "merged") "tmp"],
       Event.exec "mount" ["--bind", v, fpJoin (fpJoin b "merged") "volume"],
       Event.pivotRoot "." ".",
       Event.exec "umount" ["-l", "."]] ∧
    (childProcess w env0 c m b v).2 = .shellRan none := by
  have hcp : childProcess w env0 c m b v =
      (Event.exec "mount" ["--make-rprivate", "/"] ::
        (envTrace envs ++
          (Event.mkdirAll b :: Event.exec "mount" ["-t", "tmpfs", "tmpfs", b] ::
           Event.mkdirAll (fpJoin b "upper") ::
           Event.mkdirAll (fpJoin b "work") ::
           Event.mkdirAll (fpJoin b "merged") ::
           Event.exec "mount" ["-t", "overlay", "overlay", "-o",
             overlayOpts layers b, fpJoin b "merged"] ::
           Event.exec "mount" ["-t", "proc", "none",
             fpJoin (fpJoin b "merged") "proc"] ::
           Event.exec "mount" ["-t", "sysfs", "none",
             fpJoin (fpJoin b "merged") "sys"] ::
           Event.exec "mount" ["-t", "devtmpfs", "devtmpfs",
             fpJoin (fpJoin b "merged") "dev"] ::
           Event.exec "mount" ["-t", "devpts", "devpts",
             fpJoin (fpJoin b "merged") "dev/pts"] ::
           Event.exec "mount" ["-t", "tmpfs", "shm",
             fpJoin (fpJoin b "merged") "dev/shm"] ::
           Event.exec "mount" ["-t", "tmpfs", "tmpfs",
             fpJoin (fpJoin b "merged") "run"] ::
           Event.exec "mount" ["-t", "tmpfs", "tmpfs",
             fpJoin (fpJoin b "merged") "tmp"] ::
           Event.statCheck v ::
           Event.mkdirAll (fpJoin (fpJoin b "merged") "volume") ::
           Event.exec "mount" ["--bind", v,
             fpJoin (fpJoin b "merged") "volume"] ::
           Event.chdir (fpJoin b "merged") :: Event.pivotRoot "." "." ::
           Event.exec "umount" ["-l", "."] :: [shellEvent])),
       .shellRan none) := by
    unfold childProcess
    dsimp only
    rw [mountRecPrivate_ok w (hex _ _),
        setEnv_ok w c env0 envs hcfg hwfenv hse,
        setLayers_ok w m b (fpJoin b "merged") layers hm hwf hmk hex,
        mountBaseFs_ok w (fpJoin b "merged") hex,
        mountVolume_ok w v (fpJoin b "merged") hst (hmk _) (hex _ _),
        chroot_ok w (fpJoin b "merged") (hch _) (hpv _ _) (hex _ _),
        hex "/bin/sh" []]
    simp [stageThen]
  rw [hcp]
  refine ⟨?_, rfl⟩
  simp only [mountOps, List.filter_cons, List.filter_append,
    mountOps_envTrace]
  simp [isMountOp, shellEvent]

/-- Closed witness for C2 at a concrete all-success world. -/
theorem childProcess_mount_sequence_witness :
    mountOps (childProcess wAll [] "c" "m" "/base" "/vol").1 =
      [Event.exec "mount" ["--make-rprivate", "/"],
       Event.exec "mount" ["-t", "tmpfs", "tmpfs", "/base"],
       Event.exec "mount" ["-t", "overlay", "overlay", "-o",
         overlayOpts [⟨"sha256:aaa", "t", 1⟩, ⟨"sha256:bbb", "t", 2⟩] "/base",
         fpJoin "/base" "merged"],
       Event.exec "mount" ["-t", "proc", "none",
         fpJoin (fpJoin "/base" "merged") "proc"],
       Event.exec "mount" ["-t", "sysfs", "none",
         fpJoin (fpJoin "/base" "merged") "sys"],
       Event.exec "mount" ["-t", "devtmpfs", "devtmpfs",
         fpJoin (fpJoin "/base" "merged") "dev"],
       Event.exec "mount" ["-t", "devpts", "devpts",
         fpJoin (fpJoin "/base" "merged") "dev/pts"],
       Event.exec "mount" ["-t", "tmpfs", "shm",
         fpJoin (fpJoin "/base" "merged") "dev/shm"],
       Event.exec "mount" ["-t", "tmpfs", "tmpfs",
         fpJoin (fpJoin "/base" "merged") "run"],
       Event.exec "mount" ["-t", "tmpfs", "tmpfs",
         fpJoin (fpJoin "/base" "merged") "tmp"],
       Event.exec "mount" ["--bind", "/vol",
         fpJoin (fpJoin "/base" "merged") "volume"],
       Event.pivotRoot "." ".",
       Event.exec "umount" ["-l", "."]] ∧
    (childProcess wAll [] "c" "m" "/base" "/vol").2 = .shellRan none :=
  childProcess_mount_sequence wAll [] "c" "m" "/base" "/vol"
    ["PATH=/bin"] [⟨"sha256:aaa", "t", 1⟩, ⟨"sha256:bbb", "t", 2⟩]
    (fun _ _ => rfl) (fun _ => rfl) (fun _ _ => rfl) (fun _ => rfl)
    (fun _ _ => rfl) rfl rfl (by decide) rfl (by decide)

end DockerDemo
